import Mathlib

/-!
Verification of the Piper TTS HTTP gateway
(`src/docker/piper/piper-http-server.py`).

The server is embedded shallowly: each Python handler becomes a pure Lean
function over an explicit environment describing the external world
(the engine subprocess, the temporary file, the filesystem).  Bytes are
modelled as `List Nat`, decoded text as `String`, parsed JSON as an
inductive `Json` value.
-/

set_option autoImplicit false

namespace PiperServer

/-- JSON values as produced by `json.loads`.  An `obj` models a Python
dict after parsing, so its keys are unique (duplicate keys have already
been collapsed by the parser). -/
inductive Json where
  | null
  | bool (b : Bool)
  | num (n : Int)
  | str (s : String)
  | arr (elems : List Json)
  | obj (fields : List (String × Json))

/-- Lowercase hexadecimal digit, as Python formats `\uXXXX` escapes. -/
def hexDigit (n : Nat) : Char :=
  if n < 10 then Char.ofNat (48 + n) else Char.ofNat (87 + n)

/-- Four lowercase hex digits. -/
def hex4 (n : Nat) : String :=
  String.mk [hexDigit (n / 4096 % 16), hexDigit (n / 256 % 16),
             hexDigit (n / 16 % 16), hexDigit (n % 16)]

/-- How `json.dumps` (default `ensure_ascii=True`) escapes one character
inside a string literal: the two-character escapes for quote, backslash
and control characters with short names, `\uXXXX` for other control and
all non-ASCII characters (a surrogate pair for codepoints above
`0xFFFF`), the character itself for printable ASCII. -/
def escapeChar (c : Char) : String :=
  if c = Char.ofNat 34 then "\\\""
  else if c = Char.ofNat 92 then "\\\\"
  else if c = Char.ofNat 10 then "\\n"
  else if c = Char.ofNat 13 then "\\r"
  else if c = Char.ofNat 9 then "\\t"
  else if c = Char.ofNat 8 then "\\b"
  else if c = Char.ofNat 12 then "\\f"
  else if 32 ≤ c.toNat ∧ c.toNat ≤ 126 then String.singleton c
  else if c.toNat ≤ 0xffff then "\\u" ++ hex4 c.toNat
  else
    let v := c.toNat - 0x10000
    "\\u" ++ hex4 (0xd800 + v / 0x400) ++ "\\u" ++ hex4 (0xdc00 + v % 0x400)

/-- A JSON string literal as `json.dumps` renders it. -/
def dumpStr (s : String) : String :=
  "\"" ++ String.join (s.toList.map escapeChar) ++ "\""

mutual

/-- The serialization `json.dumps` with its default separators
(item separator a comma and a space, key separator a colon and a
space) and default `ensure_ascii=True`, so the output is pure ASCII. -/
def Json.dumps : Json → String
  | .null => "null"
  | .bool true => "true"
  | .bool false => "false"
  | .num n => toString n
  | .str s => dumpStr s
  | .arr xs => "[" ++ dumpsElems xs ++ "]"
  | .obj fs => "\x7b" ++ dumpsFields fs ++ "\x7d"

/-- Array elements, comma-and-space separated. -/
def dumpsElems : List Json → String
  | [] => ""
  | [x] => Json.dumps x
  | x :: y :: xs => Json.dumps x ++ ", " ++ dumpsElems (y :: xs)

/-- Object members, comma-and-space separated, colon-and-space between
key and value. -/
def dumpsFields : List (String × Json) → String
  | [] => ""
  | [(k, v)] => dumpStr k ++ ": " ++ Json.dumps v
  | (k, v) :: f :: fs => dumpStr k ++ ": " ++ Json.dumps v ++ ", " ++ dumpsFields (f :: fs)

end

/-- The characters on which `str.isspace()` holds, which are exactly
those `str.strip()` removes: the ASCII whitespace `\t\n\v\f\r` and
space, the separator controls `0x1c`-`0x1f`, next-line `0x85`,
no-break space `0xa0`, ogham space `0x1680`, the typographic spaces
`0x2000`-`0x200a`, the line and paragraph separators `0x2028` and
`0x2029`, narrow no-break space `0x202f`, medium mathematical space
`0x205f`, and ideographic space `0x3000`. -/
def pyIsSpace (c : Char) : Bool :=
  (9 ≤ c.toNat && c.toNat ≤ 13) || c = ' '
    || (28 ≤ c.toNat && c.toNat ≤ 31) || c.toNat = 0x85 || c.toNat = 0xa0
    || c.toNat = 0x1680 || (0x2000 ≤ c.toNat && c.toNat ≤ 0x200a)
    || c.toNat = 0x2028 || c.toNat = 0x2029 || c.toNat = 0x202f
    || c.toNat = 0x205f || c.toNat = 0x3000

/-- The `str.strip()` method: drop whitespace from both ends. -/
def pyStrip (s : String) : String :=
  String.mk (((s.toList.dropWhile pyIsSpace).reverse.dropWhile pyIsSpace).reverse)

/-- The Python type name of a parsed JSON value, as it appears in an
`AttributeError` message. -/
def jsonTypeName : Json → String
  | .null => "NoneType"
  | .bool _ => "bool"
  | .num _ => "int"
  | .str _ => "str"
  | .arr _ => "list"
  | .obj _ => "dict"

/-- The expression `data.get("text", "")`: on a dict, look the key up
and default to the empty string; on any other value, `.get` does not
exist and an `AttributeError` is raised (modelled as `.error` carrying
the message). -/
def pyGetText : Json → Except String Json
  | .obj fields => .ok ((fields.lookup "text").getD (.str ""))
  | v => .error ("AttributeError: \x27" ++ jsonTypeName v ++ "\x27 object has no attribute \x27get\x27")

/-- The call `value.strip()` on the looked-up value: defined on strings,
an `AttributeError` on every other type. -/
def pyStripAttr : Json → Except String String
  | .str s => .ok (pyStrip s)
  | v => .error ("AttributeError: \x27" ++ jsonTypeName v ++ "\x27 object has no attribute \x27strip\x27")

/-- Whether a byte lies in an inclusive range. -/
def inRange (lo hi b : Nat) : Bool := lo ≤ b && b ≤ hi

/-- The data of a `UnicodeDecodeError` raised by the strict UTF-8
codec as `bytes.decode()` uses it: the start of the offending byte
range, its end (exclusive), the lead byte, and the reason string the
codec reports. -/
structure Utf8Err where
  startPos : Nat
  endPos : Nat
  firstByte : Nat
  reason : String
deriving DecidableEq

/-- Strict UTF-8 decoding as `bytes.decode()` performs it, tracking the
byte position for error reporting.  Lead-byte classes: ASCII; invalid
starts `0x80`-`0xc1` and `0xf5`-`0xff`; two-byte `0xc2`-`0xdf`;
three-byte `0xe0`-`0xef`, where the first continuation of `0xe0` must
be `0xa0`-`0xbf` (no overlong forms) and of `0xed` must be
`0x80`-`0x9f` (no surrogates); four-byte `0xf0`-`0xf4`, where the first
continuation of `0xf0` must be `0x90`-`0xbf` and of `0xf4` must be
`0x80`-`0x8f` (code points at most `0x10ffff`).  On error, the reported
range covers the lead byte and the continuation bytes validated before
the failure, with reason `invalid start byte`, `unexpected end of
data`, or `invalid continuation byte`, matching the CPython decoder. -/
def utf8DecodeFrom : Nat → List Nat → Except Utf8Err (List Char)
  | _, [] => .ok []
  | pos, b :: rest =>
    if b ≤ 0x7f then
      match utf8DecodeFrom (pos + 1) rest with
      | .error e => .error e
      | .ok cs => .ok (Char.ofNat b :: cs)
    else if b ≤ 0xc1 then
      .error ⟨pos, pos + 1, b, "invalid start byte"⟩
    else if b ≤ 0xdf then
      match rest with
      | [] => .error ⟨pos, pos + 1, b, "unexpected end of data"⟩
      | b2 :: rest2 =>
        if inRange 0x80 0xbf b2 then
          match utf8DecodeFrom (pos + 2) rest2 with
          | .error e => .error e
          | .ok cs => .ok (Char.ofNat ((b - 0xc0) * 0x40 + (b2 - 0x80)) :: cs)
        else .error ⟨pos, pos + 1, b, "invalid continuation byte"⟩
    else if b ≤ 0xef then
      let lo2 := if b = 0xe0 then 0xa0 else 0x80
      let hi2 := if b = 0xed then 0x9f else 0xbf
      match rest with
      | [] => .error ⟨pos, pos + 1, b, "unexpected end of data"⟩
      | b2 :: rest2 =>
        if inRange lo2 hi2 b2 then
          match rest2 with
          | [] => .error ⟨pos, pos + 2, b, "unexpected end of data"⟩
          | b3 :: rest3 =>
            if inRange 0x80 0xbf b3 then
              match utf8DecodeFrom (pos + 3) rest3 with
              | .error e => .error e
              | .ok cs =>
                .ok (Char.ofNat ((b - 0xe0) * 0x1000 + (b2 - 0x80) * 0x40 + (b3 - 0x80)) :: cs)
            else .error ⟨pos, pos + 2, b, "invalid continuation byte"⟩
        else .error ⟨pos, pos + 1, b, "invalid continuation byte"⟩
    else if b ≤ 0xf4 then
      let lo2 := if b = 0xf0 then 0x90 else 0x80
      let hi2 := if b = 0xf4 then 0x8f else 0xbf
      match rest with
      | [] => .error ⟨pos, pos + 1, b, "unexpected end of data"⟩
      | b2 :: rest2 =>
        if inRange lo2 hi2 b2 then
          match rest2 with
          | [] => .error ⟨pos, pos + 2, b, "unexpected end of data"⟩
          | b3 :: rest3 =>
            if inRange 0x80 0xbf b3 then
              match rest3 with
              | [] => .error ⟨pos, pos + 3, b, "unexpected end of data"⟩
              | b4 :: rest4 =>
                if inRange 0x80 0xbf b4 then
                  match utf8DecodeFrom (pos + 4) rest4 with
                  | .error e => .error e
                  | .ok cs =>
                    .ok (Char.ofNat ((b - 0xf0) * 0x40000 + (b2 - 0x80) * 0x1000
                          + (b3 - 0x80) * 0x40 + (b4 - 0x80)) :: cs)
                else .error ⟨pos, pos + 3, b, "invalid continuation byte"⟩
            else .error ⟨pos, pos + 2, b, "invalid continuation byte"⟩
        else .error ⟨pos, pos + 1, b, "invalid continuation byte"⟩
    else .error ⟨pos, pos + 1, b, "invalid start byte"⟩

/-- The call `bytes.decode()` with the default strict UTF-8 codec. -/
def utf8Decode (bs : List Nat) : Except Utf8Err String :=
  (utf8DecodeFrom 0 bs).map String.mk

/-- A byte in the `0xXX` form used by decode-error messages. -/
def byteHex (b : Nat) : String :=
  "0x" ++ String.mk [hexDigit (b / 16 % 16), hexDigit (b % 16)]

/-- The message of `str` on a `UnicodeDecodeError`: for a single
offending byte, of the shape
`\x27utf-8\x27 codec can\x27t decode byte 0xff in position 0: invalid start byte`;
for a longer range, `decode bytes in position 0-1` with the inclusive
end position. -/
def unicodeErrMsg (e : Utf8Err) : String :=
  if e.endPos = e.startPos + 1 then
    "\x27utf-8\x27 codec can\x27t decode byte " ++ byteHex e.firstByte
      ++ " in position " ++ toString e.startPos ++ ": " ++ e.reason
  else
    "\x27utf-8\x27 codec can\x27t decode bytes in position " ++ toString e.startPos
      ++ "-" ++ toString (e.endPos - 1) ++ ": " ++ e.reason

/-- The process-wide configuration, read once from the environment at
startup: `PIPER_BIN`, `PIPER_MODEL`, `PIPER_PORT`. -/
structure Config where
  piperBin : String
  modelPath : String
  port : Nat

/-- The default configuration values of the module. -/
def defaultConfig : Config :=
  { piperBin := "/usr/local/bin/piper"
    modelPath := "/models/de_DE-thorsten-medium.onnx"
    port := 8082 }

/-- The function `os.path.basename`: the final path component, i.e.
everything after the last slash. -/
def basename (p : String) : String :=
  String.mk ((p.toList.reverse.takeWhile (fun c => c ≠ '/')).reverse)

/-- What the external engine process does during one invocation. -/
inductive EngineBehavior where
  /-- The process exits with status zero, having written the output file. -/
  | success
  /-- The process exits with a non-zero status; the raw bytes captured
  from its standard error channel are recorded (the handler decodes
  them only later, in its `except` clause). -/
  | nonzeroExit (stderr : List Nat)
  /-- The process is still running when the timeout elapses. -/
  | timeout

/-- The external world of one synthesis call: the unique temporary path
chosen by `tempfile.NamedTemporaryFile`, the engine behaviour, the bytes
found in the output file after a successful run, and whether the
filesystem raises an `OSError` (with which message) when the handler
reads or deletes the temporary file. -/
structure Env where
  tmpPath : String
  engine : EngineBehavior
  fileContents : List Nat
  readError : Option String
  unlinkError : Option String

/-- Python exceptions the synthesis code can raise.  A
`CalledProcessError` carries the captured standard error as raw bytes
(`e.stderr`), not yet decoded. -/
inductive PyExc where
  | calledProcessError (stderr : List Nat)
  | timeoutExpired (msg : String)
  | osError (msg : String)

/-- The timeout passed to `subprocess.run` (seconds). -/
def piperTimeoutSeconds : Nat := 30

/-- The argument vector of the engine invocation:
`[PIPER_BIN, "--model", MODEL_PATH, "--output_file", tmp_path]`. -/
def piperCmd (cfg : Config) (tmpPath : String) : List String :=
  [cfg.piperBin, "--model", cfg.modelPath, "--output_file", tmpPath]

/-- One character under Python string repr with a given delimiter:
backslash and the delimiter are backslash-escaped, newline, carriage
return and tab get their short escapes, other ASCII control characters
and delete are rendered `\xXX` (Python additionally escapes
non-printable characters above ASCII, which no configured path
contains). -/
def pyReprEscape (quote : Char) (c : Char) : String :=
  if c = Char.ofNat 92 then "\\\\"
  else if c = quote then "\\" ++ String.singleton quote
  else if c = Char.ofNat 10 then "\\n"
  else if c = Char.ofNat 13 then "\\r"
  else if c = Char.ofNat 9 then "\\t"
  else if c.toNat < 32 ∨ c.toNat = 127 then
    "\\x" ++ String.mk [hexDigit (c.toNat / 16 % 16), hexDigit (c.toNat % 16)]
  else String.singleton c

/-- Python repr of one string: single-quoted, unless the string
contains a single quote and no double quote, in which case double
quotes delimit it. -/
def pyReprStr (s : String) : String :=
  let q : Char :=
    if s.toList.any (fun c => c = Char.ofNat 39) && !s.toList.any (fun c => c = Char.ofNat 34)
    then Char.ofNat 34 else Char.ofNat 39
  String.singleton q ++ String.join (s.toList.map (pyReprEscape q)) ++ String.singleton q

/-- A Python list of strings as `str` renders it, e.g. in the message of
`TimeoutExpired`. -/
def pyListRepr (xs : List String) : String :=
  "[" ++ String.intercalate ", " (xs.map pyReprStr) ++ "]"

/-- The message of `str(subprocess.TimeoutExpired(cmd, 30))`. -/
def timeoutExpiredMsg (cfg : Config) (tmpPath : String) : String :=
  "Command \x27" ++ pyListRepr (piperCmd cfg tmpPath) ++ "\x27 timed out after "
    ++ toString piperTimeoutSeconds ++ " seconds"

/-- The outcome of the `subprocess.run(...)` call: either completion
(`.ok`) or a raised exception, together with whether the child process
was forcibly killed.  Per the documented semantics of `subprocess.run`
with a `timeout`, when the timeout elapses the child is killed and
waited for, and then `TimeoutExpired` is raised; with `check=True` a
non-zero exit raises `CalledProcessError` carrying the captured standard
error bytes. -/
structure RunTrace where
  result : Except PyExc Unit
  childKilled : Bool

/-- The call `subprocess.run([PIPER_BIN, "--model", MODEL_PATH,
"--output_file", tmp_path], input=text.encode("utf-8"),
capture_output=True, check=True, timeout=30)`.  The input text is fed to
the standard input of the engine; the behaviour of the engine itself is
taken from the environment. -/
def subprocessRun (cfg : Config) (env : Env) (text : String) : RunTrace :=
  match env.engine with
  | .timeout => { result := .error (.timeoutExpired (timeoutExpiredMsg cfg env.tmpPath)), childKilled := true }
  | .nonzeroExit stderr => { result := .error (.calledProcessError stderr), childKilled := false }
  | .success => { result := .ok (), childKilled := false }

/-- The observable trace of one `_synthesize` call: its result (audio
bytes or a raised exception), whether the temporary file still exists on
disk afterwards, how many times the engine was invoked, and whether the
child process was killed. -/
structure SynthTrace where
  result : Except PyExc (List Nat)
  tmpExists : Bool
  engineInvocations : Nat
  childKilled : Bool

/-- The method `PiperHandler._synthesize`.  A uniquely named temporary
file is created (`delete=False`, so it stays on disk when the `with`
block closes it); then, inside `try`, the engine is run and on
successful exit the file is read back; the `finally` block deletes the
file if it exists.  Python semantics of `finally`: when `os.unlink`
raises, that exception replaces whatever the `try` block produced
(a return value or an earlier exception), and the file remains on
disk. -/
def synthesize (cfg : Config) (env : Env) (text : String) : SynthTrace :=
  let run := subprocessRun cfg env text
  let tryResult : Except PyExc (List Nat) :=
    match run.result with
    | .error e => .error e
    | .ok _ =>
      match env.readError with
      | some msg => .error (.osError msg)
      | none => .ok env.fileContents
  match env.unlinkError with
  | some msg =>
    { result := .error (.osError msg), tmpExists := true
      engineInvocations := 1, childKilled := run.childKilled }
  | none =>
    { result := tryResult, tmpExists := false
      engineInvocations := 1, childKilled := run.childKilled }

/-- A JSON object `\x7b"error": msg\x7d`. -/
def errObj (msg : String) : Json := .obj [("error", .str msg)]

/-- An HTTP response body: either a JSON document (stored as the value
that `_send_json` serializes) or raw audio bytes. -/
inductive RespBody where
  | jsonBody (j : Json)
  | rawBytes (audio : List Nat)

/-- One well-formed HTTP response as the handler writes it: status line,
Content-Type header, Content-Length header, body. -/
structure Response where
  status : Nat
  contentType : String
  contentLength : Nat
  body : RespBody

/-- The method `PiperHandler._send_json`: serialize the data with
`json.dumps` and send it with status, `Content-Type: application/json`
and `Content-Length` equal to the byte length of the UTF-8 encoded
serialization (which is pure ASCII, so its byte length is its
character count). -/
def sendJson (status : Nat) (data : Json) : Response :=
  { status := status
    contentType := "application/json"
    contentLength := (Json.dumps data).length
    body := .jsonBody data }

/-- The 200 audio response written inline by `do_POST` on success:
`Content-Type: audio/wav`, `Content-Length` equal to the byte length of
the audio, body the raw audio bytes. -/
def audioResponse (audio : List Nat) : Response :=
  { status := 200
    contentType := "audio/wav"
    contentLength := audio.length
    body := .rawBytes audio }

/-- How the handling of one request ends: either exactly one response is
sent, or an exception escapes the handler method uncaught (the
surrounding `socketserver` machinery then logs it and closes the
connection without a response; the process survives). -/
inductive HandlerOutcome where
  | sent (r : Response)
  | uncaught (msg : String)

/-- The observable outcome of `json.loads` on the body bytes: a parsed
value; a `json.JSONDecodeError`, which the handler catches; or a
`UnicodeDecodeError` carrying its message, raised when the body bytes
do not decode as text under the encoding `json.loads` selects (for
example the single byte `0xff`, whose message is
`utf8Decode [255]` rendered by `unicodeErrMsg`) — that exception is NOT
a `JSONDecodeError`, so `except json.JSONDecodeError` does not catch
it. -/
inductive BodyParse where
  | decoded (j : Json)
  | jsonDecodeError
  | unicodeDecodeError (msg : String)

/-- A POST request as `do_POST` observes it: the path, the
Content-Length header when present (parsed as an integer), and what
`json.loads` does on the body bytes. -/
structure PostRequest where
  path : String
  contentLength : Option Nat
  bodyParse : BodyParse

/-- The observable trace of one `do_POST` call: the outcome, whether
`self.rfile.read` was executed, how many times the engine was invoked,
and — when a synthesis call happened — whether its temporary file still
exists afterwards. -/
structure PostTrace where
  outcome : HandlerOutcome
  bodyRead : Bool
  engineInvocations : Nat
  tmpExists : Option Bool

/-- The method `PiperHandler.do_POST`, line by line: reject paths other
than `/api/tts` and `/api/tts/stream` with 404; read the Content-Length
header with default 0 and reject 0 with 400; run `json.loads` on the
body, answering 400 on `JSONDecodeError` — but a `UnicodeDecodeError`
from undecodable body bytes is not caught and escapes the method;
evaluate `data.get("text", "").strip()` — outside any `try`, so an
`AttributeError` there escapes the method too; reject blank text with
400; otherwise synthesize, answering 200 with the audio on success and
500 with `str(e)` on a generic exception.  In the
`except subprocess.CalledProcessError` clause the handler evaluates
`e.stderr.decode()` before answering 500 with `piper failed: <text>`;
when those bytes are not valid UTF-8 the decode raises a
`UnicodeDecodeError` inside the `except` clause, which the sibling
`except Exception` clause of the same `try` does NOT catch, so it
escapes the method and no response is sent. -/
def do_POST (cfg : Config) (env : Env) (req : PostRequest) : PostTrace :=
  if req.path = "/api/tts" ∨ req.path = "/api/tts/stream" then
    if req.contentLength.getD 0 = 0 then
      { outcome := .sent (sendJson 400 (errObj "empty request body"))
        bodyRead := false, engineInvocations := 0, tmpExists := none }
    else
      match req.bodyParse with
      | .unicodeDecodeError msg =>
        { outcome := .uncaught msg
          bodyRead := true, engineInvocations := 0, tmpExists := none }
      | .jsonDecodeError =>
        { outcome := .sent (sendJson 400 (errObj "invalid JSON"))
          bodyRead := true, engineInvocations := 0, tmpExists := none }
      | .decoded data =>
        match pyGetText data with
        | .error msg =>
          { outcome := .uncaught msg
            bodyRead := true, engineInvocations := 0, tmpExists := none }
        | .ok v =>
          match pyStripAttr v with
          | .error msg =>
            { outcome := .uncaught msg
              bodyRead := true, engineInvocations := 0, tmpExists := none }
          | .ok text =>
            if text = "" then
              { outcome := .sent (sendJson 400 (errObj "missing \x27text\x27 field"))
                bodyRead := true, engineInvocations := 0, tmpExists := none }
            else
              let st := synthesize cfg env text
              match st.result with
              | .ok audio =>
                { outcome := .sent (audioResponse audio)
                  bodyRead := true, engineInvocations := st.engineInvocations
                  tmpExists := some st.tmpExists }
              | .error (.calledProcessError stderr) =>
                match utf8Decode stderr with
                | .ok stderrText =>
                  { outcome := .sent (sendJson 500 (errObj ("piper failed: " ++ stderrText)))
                    bodyRead := true, engineInvocations := st.engineInvocations
                    tmpExists := some st.tmpExists }
                | .error e =>
                  { outcome := .uncaught (unicodeErrMsg e)
                    bodyRead := true, engineInvocations := st.engineInvocations
                    tmpExists := some st.tmpExists }
              | .error (.timeoutExpired msg) =>
                { outcome := .sent (sendJson 500 (errObj msg))
                  bodyRead := true, engineInvocations := st.engineInvocations
                  tmpExists := some st.tmpExists }
              | .error (.osError msg) =>
                { outcome := .sent (sendJson 500 (errObj msg))
                  bodyRead := true, engineInvocations := st.engineInvocations
                  tmpExists := some st.tmpExists }
  else
    { outcome := .sent (sendJson 404 (errObj "not found"))
      bodyRead := false, engineInvocations := 0, tmpExists := none }

/-- The method `PiperHandler.do_GET`: the health check at `/health`
answers 200 with status ok and the basename of the configured model
path; every other path answers 404. -/
def do_GET (cfg : Config) (path : String) : Response :=
  if path = "/health" then
    sendJson 200 (.obj [("status", .str "ok"), ("model", .str (basename cfg.modelPath))])
  else
    sendJson 404 (errObj "not found")

/-- The filesystem facts `main` checks at startup. -/
structure World where
  binExists : Bool
  modelExists : Bool

/-- How the `main` function ends: either `sys.exit(message)` — which
prints the message to standard error and terminates the process with
exit status 1, before any server object is created — or the creation of
`http.server.HTTPServer(("0.0.0.0", PORT), PiperHandler)` followed by
`serve_forever()`, i.e. accepting connections indefinitely. -/
inductive MainOutcome where
  | exited (status : Nat) (msg : String)
  | serving (host : String) (port : Nat)

/-- The function `main`: check that the engine binary exists, then that
the model exists, exiting with a descriptive message when either is
missing; otherwise bind and serve forever. -/
def main (cfg : Config) (w : World) : MainOutcome :=
  if !w.binExists then
    .exited 1 ("Error: Piper binary not found at " ++ cfg.piperBin)
  else if !w.modelExists then
    .exited 1 ("Error: Model not found at " ++ cfg.modelPath)
  else
    .serving "0.0.0.0" cfg.port

/-! Concrete sample environments and requests used by witnesses and
counterexamples. -/

/-- An environment in which everything succeeds: the engine exits zero
having written a small RIFF/WAV prefix, and the filesystem raises no
error. -/
def envOk : Env :=
  { tmpPath := "/tmp/tmpa1b2.wav", engine := .success
    fileContents := [82, 73, 70, 70, 36, 0, 0, 0], readError := none, unlinkError := none }

/-- The bytes of the ASCII text `model load failed`. -/
def stderrReadable : List Nat :=
  [109, 111, 100, 101, 108, 32, 108, 111, 97, 100, 32, 102, 97, 105, 108, 101, 100]

/-- An environment in which the engine exits non-zero with a decodable
diagnostic on standard error. -/
def envFail : Env :=
  { tmpPath := "/tmp/tmpc3d4.wav", engine := .nonzeroExit stderrReadable
    fileContents := [], readError := none, unlinkError := none }

/-- An environment in which the engine exits non-zero emitting the
single undecodable byte `0xff` on standard error. -/
def envBadStderr : Env :=
  { tmpPath := "/tmp/tmpc3d4.wav", engine := .nonzeroExit [255]
    fileContents := [], readError := none, unlinkError := none }

/-- An environment in which the engine exits non-zero AND deleting the
temporary file raises an `OSError`. -/
def envFailUnlink : Env :=
  { tmpPath := "/tmp/tmpc3d4.wav", engine := .nonzeroExit stderrReadable
    fileContents := [], readError := none
    unlinkError := some "[Errno 13] Permission denied: \x27/tmp/tmpc3d4.wav\x27" }

/-- The message of the `UnicodeDecodeError` raised on the byte `0xff`
at position 0. -/
def msgFF : String := unicodeErrMsg ⟨0, 1, 255, "invalid start byte"⟩

/-- An environment in which the engine exceeds the 30-second timeout. -/
def envTimeout : Env :=
  { tmpPath := "/tmp/tmpe5f6.wav", engine := .timeout
    fileContents := [], readError := none, unlinkError := none }

/-- An environment in which synthesis succeeds but deleting the
temporary file raises an `OSError`. -/
def envUnlinkFail : Env :=
  { tmpPath := "/tmp/tmpg7h8.wav", engine := .success
    fileContents := [82, 73, 70, 70], readError := none
    unlinkError := some "[Errno 13] Permission denied: \x27/tmp/tmpg7h8.wav\x27" }

/-- A well-formed synthesis request for the text `hallo`. -/
def reqOk : PostRequest :=
  { path := "/api/tts", contentLength := some 17
    bodyParse := .decoded (.obj [("text", .str "hallo")]) }

/-- A request whose body is the valid JSON document `5`, which is not an
object. -/
def reqNonObjBody : PostRequest :=
  { path := "/api/tts", contentLength := some 1, bodyParse := .decoded (.num 5) }

/-- A request whose body is the single byte `0xff`: `json.loads` raises
a `UnicodeDecodeError` with the message of `utf8Decode [255]`. -/
def reqUndecodable : PostRequest :=
  { path := "/api/tts", contentLength := some 1
    bodyParse := .unicodeDecodeError msgFF }

/-! Claims. -/

/-- C1: for every synthesis call, as long as the delete operation itself
does not fail, the temporary audio file created by the invoker is gone
when the call finishes, on every outcome — successful read of the audio,
engine non-zero exit, the 30-second timeout, and an unexpected read
exception — because the `finally` block deletes it on every path. -/
theorem c1_tmp_file_always_deleted (cfg : Config) (env : Env) (text : String)
    (h : env.unlinkError = none) :
    (synthesize cfg env text).tmpExists = false := by
  simp [synthesize, h]

/-- C1 witness: the timeout environment, concretely. -/
theorem c1_witness :
    envTimeout.unlinkError = none ∧
    (synthesize defaultConfig envTimeout "hallo").tmpExists = false :=
  ⟨rfl, c1_tmp_file_always_deleted defaultConfig envTimeout "hallo" rfl⟩

/-- C2 counterexample: in an environment where the engine succeeds, the
audio is read back, and only the final `os.unlink` raises, the request
answers 500 with the deletion error — not the synthesized audio.  The
`finally` block has no exception guard, so the `OSError` replaces the
successful return value and the generic `except Exception` branch of
`do_POST` turns it into a 500. -/
theorem c2_counterexample :
    (do_POST defaultConfig envUnlinkFail reqOk).outcome
      = .sent (sendJson 500 (errObj "[Errno 13] Permission denied: \x27/tmp/tmpg7h8.wav\x27"))
    ∧ (do_POST defaultConfig envUnlinkFail reqOk).outcome
      ≠ .sent (audioResponse envUnlinkFail.fileContents) := by
  have hA : (do_POST defaultConfig envUnlinkFail reqOk).outcome
      = .sent (sendJson 500 (errObj "[Errno 13] Permission denied: \x27/tmp/tmpg7h8.wav\x27")) := rfl
  refine ⟨hA, ?_⟩
  rw [hA]
  intro h
  simp [sendJson, audioResponse] at h

/-- C2 amended: if deleting the temporary file fails after the engine
has exited successfully and the audio has been read, the deletion error
is NOT swallowed: it propagates out of the `finally` block, discards the
audio, and the request answers 500 with a JSON body carrying the
deletion error message. -/
theorem c2_deletion_error_propagates (cfg : Config) (env : Env) (req : PostRequest)
    (fields : List (String × Json)) (s msg : String)
    (hpath : req.path = "/api/tts" ∨ req.path = "/api/tts/stream")
    (hcl : req.contentLength.getD 0 ≠ 0)
    (hbody : req.bodyParse = .decoded (.obj fields))
    (htext : (fields.lookup "text").getD (.str "") = .str s)
    (hs : pyStrip s ≠ "")
    (heng : env.engine = .success)
    (hread : env.readError = none)
    (hunlink : env.unlinkError = some msg) :
    (do_POST cfg env req).outcome = .sent (sendJson 500 (errObj msg)) := by
  rcases hpath with hpath | hpath <;>
    simp [do_POST, hpath, hcl, hbody, htext, hs, heng, hread, hunlink,
      pyGetText, pyStripAttr, synthesize, subprocessRun]

/-- C2 amended witness: concrete request and unlink-failing
environment. -/
theorem c2_witness :
    (reqOk.path = "/api/tts" ∨ reqOk.path = "/api/tts/stream") ∧
    reqOk.contentLength.getD 0 ≠ 0 ∧
    reqOk.bodyParse = .decoded (.obj [("text", .str "hallo")]) ∧
    ([("text", Json.str "hallo")].lookup "text").getD (.str "") = .str "hallo" ∧
    pyStrip "hallo" ≠ "" ∧
    envUnlinkFail.engine = .success ∧
    envUnlinkFail.readError = none ∧
    envUnlinkFail.unlinkError = some "[Errno 13] Permission denied: \x27/tmp/tmpg7h8.wav\x27" ∧
    (do_POST defaultConfig envUnlinkFail reqOk).outcome
      = .sent (sendJson 500 (errObj "[Errno 13] Permission denied: \x27/tmp/tmpg7h8.wav\x27")) :=
  ⟨Or.inl rfl, by simp [reqOk], rfl, rfl, by decide, rfl, rfl, rfl,
    c2_deletion_error_propagates defaultConfig envUnlinkFail reqOk
      [("text", Json.str "hallo")] "hallo" _
      (Or.inl rfl) (by simp [reqOk]) rfl rfl (by decide) rfl rfl rfl⟩

/-- C3 counterexample: the single body byte `0xff` is not valid JSON,
yet the handler does not answer 400 `invalid JSON` — `json.loads`
raises a `UnicodeDecodeError` (first conjunct: what the strict UTF-8
codec reports on that byte), which `except json.JSONDecodeError` does
not catch, so the exception escapes the handler and no response is
sent.  Likewise the body `5` is valid JSON without a usable text field,
yet instead of a 400 the `data.get` call on a non-dict raises an
`AttributeError` outside every `try`. -/
theorem c3_counterexample :
    utf8Decode [255] = .error ⟨0, 1, 255, "invalid start byte"⟩ ∧
    (do_POST defaultConfig envOk reqUndecodable).outcome = .uncaught msgFF ∧
    (do_POST defaultConfig envOk reqUndecodable).outcome
      ≠ .sent (sendJson 400 (errObj "invalid JSON")) ∧
    (do_POST defaultConfig envOk reqNonObjBody).outcome
      = .uncaught "AttributeError: \x27int\x27 object has no attribute \x27get\x27" ∧
    (do_POST defaultConfig envOk reqNonObjBody).outcome
      ≠ .sent (sendJson 400 (errObj "missing \x27text\x27 field")) := by
  have hU : (do_POST defaultConfig envOk reqUndecodable).outcome = .uncaught msgFF := rfl
  have hN : (do_POST defaultConfig envOk reqNonObjBody).outcome
      = .uncaught "AttributeError: \x27int\x27 object has no attribute \x27get\x27" := rfl
  refine ⟨rfl, hU, ?_, hN, ?_⟩
  · rw [hU]; intro h; simp at h
  · rw [hN]; intro h; simp at h

/-- C3 amended: on an accepted POST path, a declared length of 0 yields
400 `empty request body`; a body on which `json.loads` raises a
`JSONDecodeError` yields 400 `invalid JSON`; a body that is a valid
JSON OBJECT whose text field is absent or a string blank after
stripping yields 400 `missing text field`.  But a body whose bytes do
not decode as text makes `json.loads` raise a `UnicodeDecodeError` that
the handler does not catch, and a valid JSON body that is not an
object, or an object whose text value is not a string, raises an
uncaught `AttributeError`; in those cases no 4xx response is sent (the
server framework catches the escaped exception, so the process itself
survives). -/
theorem c3_malformed_body_responses (cfg : Config) (env : Env) (path : String)
    (cl : Option Nat) (bp : BodyParse)
    (hpath : path = "/api/tts" ∨ path = "/api/tts/stream") :
    (cl.getD 0 = 0 →
      (do_POST cfg env ⟨path, cl, bp⟩).outcome
        = .sent (sendJson 400 (errObj "empty request body"))) ∧
    (cl.getD 0 ≠ 0 → bp = .jsonDecodeError →
      (do_POST cfg env ⟨path, cl, bp⟩).outcome
        = .sent (sendJson 400 (errObj "invalid JSON"))) ∧
    (∀ msg, cl.getD 0 ≠ 0 → bp = .unicodeDecodeError msg →
      (do_POST cfg env ⟨path, cl, bp⟩).outcome = .uncaught msg) ∧
    (∀ fields s, cl.getD 0 ≠ 0 → bp = .decoded (.obj fields) →
      (fields.lookup "text").getD (.str "") = .str s → pyStrip s = "" →
      (do_POST cfg env ⟨path, cl, bp⟩).outcome
        = .sent (sendJson 400 (errObj "missing \x27text\x27 field"))) ∧
    (∀ j msg, cl.getD 0 ≠ 0 → bp = .decoded j → pyGetText j = .error msg →
      (do_POST cfg env ⟨path, cl, bp⟩).outcome = .uncaught msg) ∧
    (∀ j v msg, cl.getD 0 ≠ 0 → bp = .decoded j → pyGetText j = .ok v →
      pyStripAttr v = .error msg →
      (do_POST cfg env ⟨path, cl, bp⟩).outcome = .uncaught msg) := by
  refine ⟨?_, ?_, ?_, ?_, ?_, ?_⟩
  · intro hcl
    rcases hpath with hpath | hpath <;> simp [do_POST, hpath, hcl]
  · intro hcl hbody
    rcases hpath with hpath | hpath <;> simp [do_POST, hpath, hcl, hbody]
  · intro msg hcl hbody
    rcases hpath with hpath | hpath <;> simp [do_POST, hpath, hcl, hbody]
  · intro fields s hcl hbody htext hs
    rcases hpath with hpath | hpath <;>
      simp [do_POST, hpath, hcl, hbody, pyGetText, pyStripAttr, htext, hs]
  · intro j msg hcl hbody hget
    rcases hpath with hpath | hpath <;> simp [do_POST, hpath, hcl, hbody, hget]
  · intro j v msg hcl hbody hget hstrip
    rcases hpath with hpath | hpath <;> simp [do_POST, hpath, hcl, hbody, hget, hstrip]

/-- C3 amended witness: the three 4xx branches and the three
uncaught-exception branches at concrete inputs. -/
theorem c3_witness :
    ((("/api/tts" : String) = "/api/tts" ∨ ("/api/tts" : String) = "/api/tts/stream") ∧
      (Option.getD (some 0) 0 = 0) ∧
      (do_POST defaultConfig envOk ⟨"/api/tts", some 0, .jsonDecodeError⟩).outcome
        = .sent (sendJson 400 (errObj "empty request body"))) ∧
    ((do_POST defaultConfig envOk ⟨"/api/tts", some 8, .jsonDecodeError⟩).outcome
        = .sent (sendJson 400 (errObj "invalid JSON"))) ∧
    ((do_POST defaultConfig envOk ⟨"/api/tts", some 1, .unicodeDecodeError msgFF⟩).outcome
        = .uncaught msgFF) ∧
    ((do_POST defaultConfig envOk
        ⟨"/api/tts", some 16, .decoded (.obj [("text", .str "   ")])⟩).outcome
        = .sent (sendJson 400 (errObj "missing \x27text\x27 field"))) ∧
    ((do_POST defaultConfig envOk ⟨"/api/tts", some 1, .decoded (.num 5)⟩).outcome
        = .uncaught "AttributeError: \x27int\x27 object has no attribute \x27get\x27") ∧
    ((do_POST defaultConfig envOk
        ⟨"/api/tts", some 13, .decoded (.obj [("text", .num 7)])⟩).outcome
        = .uncaught "AttributeError: \x27int\x27 object has no attribute \x27strip\x27") :=
  ⟨⟨Or.inl rfl, rfl,
    (c3_malformed_body_responses defaultConfig envOk "/api/tts" (some 0) .jsonDecodeError
      (Or.inl rfl)).1 rfl⟩,
    (c3_malformed_body_responses defaultConfig envOk "/api/tts" (some 8) .jsonDecodeError
      (Or.inl rfl)).2.1 (by decide) rfl,
    (c3_malformed_body_responses defaultConfig envOk "/api/tts" (some 1)
      (.unicodeDecodeError msgFF) (Or.inl rfl)).2.2.1 msgFF (by decide) rfl,
    (c3_malformed_body_responses defaultConfig envOk "/api/tts" (some 16)
      (.decoded (.obj [("text", .str "   ")])) (Or.inl rfl)).2.2.2.1
      [("text", .str "   ")] "   " (by decide) rfl rfl (by decide),
    (c3_malformed_body_responses defaultConfig envOk "/api/tts" (some 1)
      (.decoded (.num 5)) (Or.inl rfl)).2.2.2.2.1 (.num 5) _ (by decide) rfl rfl,
    (c3_malformed_body_responses defaultConfig envOk "/api/tts" (some 13)
      (.decoded (.obj [("text", .num 7)])) (Or.inl rfl)).2.2.2.2.2
      (.obj [("text", .num 7)]) (.num 7) _ (by decide) rfl rfl rfl⟩

/-- C4: a request on an accepted path whose synthesis succeeds (engine
exits zero, the file is read back, deletion succeeds) is answered with
status 200, Content-Type audio/wav, Content-Length equal to the byte
length of the audio, and a body that is exactly the raw bytes read from
the temporary file. -/
theorem c4_success_response (cfg : Config) (env : Env) (req : PostRequest)
    (fields : List (String × Json)) (s : String)
    (hpath : req.path = "/api/tts" ∨ req.path = "/api/tts/stream")
    (hcl : req.contentLength.getD 0 ≠ 0)
    (hbody : req.bodyParse = .decoded (.obj fields))
    (htext : (fields.lookup "text").getD (.str "") = .str s)
    (hs : pyStrip s ≠ "")
    (heng : env.engine = .success)
    (hread : env.readError = none)
    (hunlink : env.unlinkError = none) :
    (do_POST cfg env req).outcome
      = .sent { status := 200, contentType := "audio/wav"
                contentLength := env.fileContents.length
                body := .rawBytes env.fileContents } := by
  rcases hpath with hpath | hpath <;>
    simp [do_POST, hpath, hcl, hbody, htext, hs, heng, hread, hunlink,
      pyGetText, pyStripAttr, synthesize, subprocessRun, audioResponse]

/-- C4 witness: the well-formed request in the all-success
environment. -/
theorem c4_witness :
    (reqOk.path = "/api/tts" ∨ reqOk.path = "/api/tts/stream") ∧
    reqOk.contentLength.getD 0 ≠ 0 ∧
    envOk.engine = .success ∧ envOk.readError = none ∧ envOk.unlinkError = none ∧
    (do_POST defaultConfig envOk reqOk).outcome
      = .sent { status := 200, contentType := "audio/wav"
                contentLength := envOk.fileContents.length
                body := .rawBytes envOk.fileContents } :=
  ⟨Or.inl rfl, by decide, rfl, rfl, rfl,
    c4_success_response defaultConfig envOk reqOk [("text", Json.str "hallo")] "hallo"
      (Or.inl rfl) (by decide) rfl rfl (by decide) rfl rfl rfl⟩

/-- C5 counterexample: two accepted requests on which the engine exits
non-zero and no `piper failed:` response is produced.  First, when the
cleanup `os.unlink` raises, the `OSError` from the `finally` block
replaces the `CalledProcessError`, so the generic handler answers 500
with the deletion message, not `piper failed: <stderr>`.  Second, when
the captured stderr is the undecodable byte `0xff` (third conjunct:
what the codec reports on it), `e.stderr.decode()` raises a
`UnicodeDecodeError` inside the `except` clause; the sibling
`except Exception` clause does not catch it, so the exception escapes
and no response is sent at all. -/
theorem c5_counterexample :
    (do_POST defaultConfig envFailUnlink reqOk).outcome
      = .sent (sendJson 500 (errObj "[Errno 13] Permission denied: \x27/tmp/tmpc3d4.wav\x27")) ∧
    (do_POST defaultConfig envFailUnlink reqOk).outcome
      ≠ .sent (sendJson 500 (errObj "piper failed: model load failed")) ∧
    utf8Decode [255] = .error ⟨0, 1, 255, "invalid start byte"⟩ ∧
    (do_POST defaultConfig envBadStderr reqOk).outcome = .uncaught msgFF := by
  have hA : (do_POST defaultConfig envFailUnlink reqOk).outcome
      = .sent (sendJson 500 (errObj "[Errno 13] Permission denied: \x27/tmp/tmpc3d4.wav\x27")) := rfl
  refine ⟨hA, ?_, rfl, rfl⟩
  rw [hA]
  intro h
  simp [sendJson, errObj] at h

/-- C5 amended: on an accepted request where the engine exits non-zero,
the engine is invoked exactly once (no retry), and: when the captured
stderr bytes decode as UTF-8 and the cleanup deletion does not raise,
the handler answers 500 with JSON body `piper failed:` followed by the
decoded stderr text; when the stderr bytes are not valid UTF-8 (and the
deletion does not raise), `e.stderr.decode()` raises a
`UnicodeDecodeError` that escapes the handler uncaught, so no response
is sent; when the deletion raises, its `OSError` replaces the
`CalledProcessError` and the handler answers 500 with the deletion
error message instead. -/
theorem c5_engine_failure_response (cfg : Config) (env : Env) (req : PostRequest)
    (fields : List (String × Json)) (s : String) (stderr : List Nat)
    (hpath : req.path = "/api/tts" ∨ req.path = "/api/tts/stream")
    (hcl : req.contentLength.getD 0 ≠ 0)
    (hbody : req.bodyParse = .decoded (.obj fields))
    (htext : (fields.lookup "text").getD (.str "") = .str s)
    (hs : pyStrip s ≠ "")
    (heng : env.engine = .nonzeroExit stderr) :
    (∀ t, utf8Decode stderr = .ok t → env.unlinkError = none →
      (do_POST cfg env req).outcome = .sent (sendJson 500 (errObj ("piper failed: " ++ t))) ∧
      (do_POST cfg env req).engineInvocations = 1) ∧
    (∀ e, utf8Decode stderr = .error e → env.unlinkError = none →
      (do_POST cfg env req).outcome = .uncaught (unicodeErrMsg e) ∧
      (do_POST cfg env req).engineInvocations = 1) ∧
    (∀ m, env.unlinkError = some m →
      (do_POST cfg env req).outcome = .sent (sendJson 500 (errObj m)) ∧
      (do_POST cfg env req).engineInvocations = 1) := by
  refine ⟨?_, ?_, ?_⟩
  · intro t hdec hunlink
    rcases hpath with hpath | hpath <;>
      simp [do_POST, hpath, hcl, hbody, htext, hs, heng, hdec, hunlink,
        pyGetText, pyStripAttr, synthesize, subprocessRun]
  · intro e hdec hunlink
    rcases hpath with hpath | hpath <;>
      simp [do_POST, hpath, hcl, hbody, htext, hs, heng, hdec, hunlink,
        pyGetText, pyStripAttr, synthesize, subprocessRun]
  · intro m hunlink
    rcases hpath with hpath | hpath <;>
      simp [do_POST, hpath, hcl, hbody, htext, hs, heng, hunlink,
        pyGetText, pyStripAttr, synthesize, subprocessRun]

/-- C5 amended witness: all three branches at concrete environments —
decodable stderr, the undecodable byte `0xff`, and a failing cleanup
deletion. -/
theorem c5_witness :
    envFail.engine = .nonzeroExit stderrReadable ∧
    utf8Decode stderrReadable = .ok "model load failed" ∧
    envFail.unlinkError = none ∧
    (do_POST defaultConfig envFail reqOk).outcome
      = .sent (sendJson 500 (errObj "piper failed: model load failed")) ∧
    (do_POST defaultConfig envFail reqOk).engineInvocations = 1 ∧
    (do_POST defaultConfig envBadStderr reqOk).outcome = .uncaught msgFF ∧
    (do_POST defaultConfig envFailUnlink reqOk).outcome
      = .sent (sendJson 500 (errObj "[Errno 13] Permission denied: \x27/tmp/tmpc3d4.wav\x27")) :=
  ⟨rfl, rfl, rfl,
    ((c5_engine_failure_response defaultConfig envFail reqOk [("text", Json.str "hallo")]
      "hallo" stderrReadable (Or.inl rfl) (by decide) rfl rfl (by decide) rfl).1
      "model load failed" rfl rfl).1,
    ((c5_engine_failure_response defaultConfig envFail reqOk [("text", Json.str "hallo")]
      "hallo" stderrReadable (Or.inl rfl) (by decide) rfl rfl (by decide) rfl).1
      "model load failed" rfl rfl).2,
    ((c5_engine_failure_response defaultConfig envBadStderr reqOk [("text", Json.str "hallo")]
      "hallo" [255] (Or.inl rfl) (by decide) rfl rfl (by decide) rfl).2.1
      ⟨0, 1, 255, "invalid start byte"⟩ rfl rfl).1,
    ((c5_engine_failure_response defaultConfig envFailUnlink reqOk [("text", Json.str "hallo")]
      "hallo" stderrReadable (Or.inl rfl) (by decide) rfl rfl (by decide) rfl).2.2
      "[Errno 13] Permission denied: \x27/tmp/tmpc3d4.wav\x27" rfl).1⟩

/-- C6: the engine invocation is bounded by the hard 30-second timeout
passed to the subprocess call; when the bound is exceeded the child
process is forcibly killed, the invocation produces an exception rather
than audio, and the request is answered 500 with a JSON error body
carrying the timeout message. -/
theorem c6_timeout_is_failure (cfg : Config) (env : Env) (req : PostRequest)
    (fields : List (String × Json)) (s : String)
    (hpath : req.path = "/api/tts" ∨ req.path = "/api/tts/stream")
    (hcl : req.contentLength.getD 0 ≠ 0)
    (hbody : req.bodyParse = .decoded (.obj fields))
    (htext : (fields.lookup "text").getD (.str "") = .str s)
    (hs : pyStrip s ≠ "")
    (heng : env.engine = .timeout)
    (hunlink : env.unlinkError = none) :
    piperTimeoutSeconds = 30 ∧
    (synthesize cfg env (pyStrip s)).childKilled = true ∧
    (∀ audio, (synthesize cfg env (pyStrip s)).result ≠ .ok audio) ∧
    (do_POST cfg env req).outcome
      = .sent (sendJson 500 (errObj (timeoutExpiredMsg cfg env.tmpPath))) := by
  refine ⟨rfl, ?_, ?_, ?_⟩
  · simp [synthesize, subprocessRun, heng, hunlink]
  · intro audio
    simp [synthesize, subprocessRun, heng, hunlink]
  · rcases hpath with hpath | hpath <;>
      simp [do_POST, hpath, hcl, hbody, htext, hs, heng, hunlink,
        pyGetText, pyStripAttr, synthesize, subprocessRun]

/-- C6 witness: the timing-out environment, concretely. -/
theorem c6_witness :
    envTimeout.engine = .timeout ∧
    envTimeout.unlinkError = none ∧
    piperTimeoutSeconds = 30 ∧
    (synthesize defaultConfig envTimeout (pyStrip "hallo")).childKilled = true ∧
    (do_POST defaultConfig envTimeout reqOk).outcome
      = .sent (sendJson 500 (errObj (timeoutExpiredMsg defaultConfig envTimeout.tmpPath))) :=
  ⟨rfl, rfl,
    (c6_timeout_is_failure defaultConfig envTimeout reqOk [("text", Json.str "hallo")]
      "hallo" (Or.inl rfl) (by decide) rfl rfl (by decide) rfl rfl).1,
    (c6_timeout_is_failure defaultConfig envTimeout reqOk [("text", Json.str "hallo")]
      "hallo" (Or.inl rfl) (by decide) rfl rfl (by decide) rfl rfl).2.1,
    (c6_timeout_is_failure defaultConfig envTimeout reqOk [("text", Json.str "hallo")]
      "hallo" (Or.inl rfl) (by decide) rfl rfl (by decide) rfl rfl).2.2.2⟩

/-- C7: for every Content-Length, body-parse outcome and environment, a
POST to `/api/tts` and a POST to `/api/tts/stream` produce identical
traces — both paths pass the same membership test and nothing afterwards
depends on the path — and a POST to any other path answers 404 with
JSON body `error: not found`. -/
theorem c7_paths_equivalent (cfg : Config) (env : Env) (cl : Option Nat)
    (bp : BodyParse) :
    do_POST cfg env ⟨"/api/tts", cl, bp⟩ = do_POST cfg env ⟨"/api/tts/stream", cl, bp⟩ ∧
    ∀ p, p ≠ "/api/tts" → p ≠ "/api/tts/stream" →
      (do_POST cfg env ⟨p, cl, bp⟩).outcome = .sent (sendJson 404 (errObj "not found")) := by
  constructor
  · simp [do_POST]
  · intro p hp1 hp2
    simp [do_POST, hp1, hp2]

/-- C7 witness: the equivalence and the 404 branch at a concrete
unknown path. -/
theorem c7_witness :
    do_POST defaultConfig envOk ⟨"/api/tts", some 17, .decoded (.obj [("text", .str "hallo")])⟩
      = do_POST defaultConfig envOk
          ⟨"/api/tts/stream", some 17, .decoded (.obj [("text", .str "hallo")])⟩ ∧
    ("/unknown" : String) ≠ "/api/tts" ∧
    ("/unknown" : String) ≠ "/api/tts/stream" ∧
    (do_POST defaultConfig envOk
        ⟨"/unknown", some 17, .decoded (.obj [("text", .str "hallo")])⟩).outcome
      = .sent (sendJson 404 (errObj "not found")) :=
  ⟨(c7_paths_equivalent defaultConfig envOk (some 17)
      (.decoded (.obj [("text", .str "hallo")]))).1,
    by decide, by decide,
    (c7_paths_equivalent defaultConfig envOk (some 17)
      (.decoded (.obj [("text", .str "hallo")]))).2 "/unknown" (by decide) (by decide)⟩

/-- C8: for every configuration, a GET to `/health` answers 200 with
JSON body containing status ok and the basename of the configured model
path; for the default model path that basename is the file name without
the directory part; a GET to any other path answers 404 with JSON body
`error: not found`. -/
theorem c8_health_endpoint (cfg : Config) :
    do_GET cfg "/health"
      = sendJson 200 (.obj [("status", .str "ok"), ("model", .str (basename cfg.modelPath))]) ∧
    basename defaultConfig.modelPath = "de_DE-thorsten-medium.onnx" ∧
    ∀ p, p ≠ "/health" → do_GET cfg p = sendJson 404 (errObj "not found") := by
  refine ⟨by simp [do_GET], by decide, ?_⟩
  intro p hp
  simp [do_GET, hp]

/-- C8 witness: the health check and a 404 at a concrete path. -/
theorem c8_witness :
    do_GET defaultConfig "/health"
      = sendJson 200 (.obj [("status", .str "ok"),
          ("model", .str (basename defaultConfig.modelPath))]) ∧
    ("/metrics" : String) ≠ "/health" ∧
    do_GET defaultConfig "/metrics" = sendJson 404 (errObj "not found") :=
  ⟨(c8_health_endpoint defaultConfig).1, by decide,
    (c8_health_endpoint defaultConfig).2.2 "/metrics" (by decide)⟩

/-- C9: at startup, a missing engine binary or a missing model makes the
process terminate with exit status 1 and a descriptive message, and in
neither failure case does execution reach the creation of the listening
server; when both paths exist the process binds 0.0.0.0 on the
configured port and serves indefinitely. -/
theorem c9_startup_validation (cfg : Config) (w : World) :
    (w.binExists = false →
      main cfg w = .exited 1 ("Error: Piper binary not found at " ++ cfg.piperBin)) ∧
    (w.binExists = true → w.modelExists = false →
      main cfg w = .exited 1 ("Error: Model not found at " ++ cfg.modelPath)) ∧
    ((w.binExists = false ∨ w.modelExists = false) →
      ∀ h p, main cfg w ≠ .serving h p) ∧
    (w.binExists = true → w.modelExists = true →
      main cfg w = .serving "0.0.0.0" cfg.port) := by
  refine ⟨?_, ?_, ?_, ?_⟩
  · intro hb; simp [main, hb]
  · intro hb hm; simp [main, hb, hm]
  · rintro (hb | hm) h p
    · simp [main, hb]
    · cases hb : w.binExists <;> simp [main, hb, hm]
  · intro hb hm; simp [main, hb, hm]

/-- C9 witness: both startup failure kinds and the success case at
concrete worlds. -/
theorem c9_witness :
    main defaultConfig ⟨false, true⟩
      = .exited 1 "Error: Piper binary not found at /usr/local/bin/piper" ∧
    main defaultConfig ⟨true, false⟩
      = .exited 1 "Error: Model not found at /models/de_DE-thorsten-medium.onnx" ∧
    main defaultConfig ⟨true, false⟩ ≠ .serving "0.0.0.0" 8082 ∧
    main defaultConfig ⟨true, true⟩ = .serving "0.0.0.0" 8082 :=
  ⟨(c9_startup_validation defaultConfig ⟨false, true⟩).1 rfl,
    (c9_startup_validation defaultConfig ⟨true, false⟩).2.1 rfl rfl,
    (c9_startup_validation defaultConfig ⟨true, false⟩).2.2.1 (Or.inr rfl) "0.0.0.0" 8082,
    (c9_startup_validation defaultConfig ⟨true, true⟩).2.2.2 rfl rfl⟩

/-- C10: a POST to an accepted path with no Content-Length header is
handled identically to one declaring length 0 — the header lookup
defaults to 0 — and both answer 400 with JSON body
`error: empty request body`, without reading any body bytes and without
invoking the engine. -/
theorem c10_missing_content_length (cfg : Config) (env : Env) (path : String)
    (bp : BodyParse)
    (hpath : path = "/api/tts" ∨ path = "/api/tts/stream") :
    do_POST cfg env ⟨path, none, bp⟩ = do_POST cfg env ⟨path, some 0, bp⟩ ∧
    do_POST cfg env ⟨path, none, bp⟩ =
      { outcome := .sent (sendJson 400 (errObj "empty request body"))
        bodyRead := false, engineInvocations := 0, tmpExists := none } := by
  rcases hpath with hpath | hpath <;> subst hpath <;>
    exact ⟨rfl, by simp [do_POST]⟩

/-- C10 witness: concrete accepted path and a body-parse value. -/
theorem c10_witness :
    (("/api/tts" : String) = "/api/tts" ∨ ("/api/tts" : String) = "/api/tts/stream") ∧
    do_POST defaultConfig envOk ⟨"/api/tts", none, .decoded (.obj [("text", .str "hallo")])⟩
      = do_POST defaultConfig envOk
          ⟨"/api/tts", some 0, .decoded (.obj [("text", .str "hallo")])⟩ ∧
    do_POST defaultConfig envOk ⟨"/api/tts", none, .decoded (.obj [("text", .str "hallo")])⟩
      = { outcome := .sent (sendJson 400 (errObj "empty request body"))
          bodyRead := false, engineInvocations := 0, tmpExists := none } :=
  ⟨Or.inl rfl,
    (c10_missing_content_length defaultConfig envOk "/api/tts"
      (.decoded (.obj [("text", .str "hallo")])) (Or.inl rfl)).1,
    (c10_missing_content_length defaultConfig envOk "/api/tts"
      (.decoded (.obj [("text", .str "hallo")])) (Or.inl rfl)).2⟩

end PiperServer
